import Mathlib

/-!
Verification of `packages/website/sidebars.js`: a Docusaurus sidebar
configuration module consisting of one helper function
(`createLibraryReferenceStructure`) and one static nested object literal
(`sidebars`, exporting `docsSidebar`).

JavaScript values appearing in the module are modelled by the untyped
inductive `JValue` (strings, booleans, arrays, objects as ordered
field lists).  The helper function and the whole sidebar literal are
transcribed value-for-value from the source.
-/

/-- Untyped JavaScript value, as used in the sidebar configuration:
strings, booleans, arrays and object literals (ordered field lists). -/
inductive JValue : Type where
  | str (s : String)
  | bool (b : Bool)
  | arr (xs : List JValue)
  | obj (fields : List (String × JValue))

/-- Property lookup on an ordered field list (first match; the source
object literals have no duplicate keys). -/
def jGet : List (String × JValue) → String → Option JValue
  | [], _ => none
  | (k, v) :: rest, key => if k = key then some v else jGet rest key

/-- Property access `v[key]` on a JavaScript value: defined on objects,
`none` (undefined) otherwise. -/
def JValue.getField : JValue → String → Option JValue
  | .obj fs, key => jGet fs key
  | _, _ => none

/-- Transcription of `createLibraryReferenceStructure(libName, extra)`
from `packages/website/sidebars.js`.  The optional parameter `extra`
becomes an `Option`; the spread `...(extra ?? [])` becomes
`extra.getD []`. -/
def createLibraryReferenceStructure (libName : String)
    (extra : Option (List JValue)) : JValue :=
  .obj [
    ("type", .str "category"),
    ("label", .str "Reference"),
    ("link", .obj [
      ("type", .str "doc"),
      ("id", .str ("standard-library/" ++ libName ++ "/reference/index"))]),
    ("items", .arr (
      .obj [
        ("type", .str "autogenerated"),
        ("dirName", .str ("standard-library/" ++ libName ++ "/reference"))]
      :: extra.getD []))]

/-- Transcription of the `docsSidebar` array of the `sidebars` literal
from `packages/website/sidebars.js`, with the two
`createLibraryReferenceStructure` calls as in the source. -/
def docsSidebar : List JValue := [
  .obj [("type", .str "category"), ("label", .str "Introduction"),
    ("items", .arr [
      .str "introduction/introduction",
      .str "introduction/installation",
      .str "introduction/usage",
      .str "introduction/style-guide",
      .str "introduction/formatter",
      .obj [("type", .str "category"), ("label", .str "Configuration"),
        ("items", .arr [
          .str "introduction/configuration/configuration",
          .str "introduction/configuration/tracing"])],
      .str "introduction/releases",
      .str "introduction/faq"])],
  .obj [("type", .str "category"), ("label", .str "Getting Started"),
    ("items", .arr [
      .str "getting-started/getting-started",
      .str "getting-started/cadl-for-openapi-dev"])],
  .obj [("type", .str "category"), ("label", .str "Language Basics"),
    ("items", .arr [
      .str "language-basics/overview",
      .str "language-basics/imports",
      .str "language-basics/namespaces",
      .str "language-basics/decorators",
      .str "language-basics/scalars",
      .str "language-basics/models",
      .str "language-basics/operations",
      .str "language-basics/interfaces",
      .str "language-basics/templates",
      .str "language-basics/enums",
      .str "language-basics/unions",
      .str "language-basics/intersections",
      .str "language-basics/type-literals",
      .str "language-basics/aliases",
      .str "language-basics/type-relations"])],
  .obj [("type", .str "category"), ("label", .str "Cadl Standard Library"),
    ("items", .arr [
      .str "standard-library/built-in-types",
      .str "standard-library/built-in-decorators",
      .str "standard-library/projected-names",
      .obj [("type", .str "category"), ("label", .str "Http And Rest"),
        ("items", .arr [
          .str "standard-library/rest/overview",
          createLibraryReferenceStructure "rest" none,
          .str "standard-library/rest/operations",
          .str "standard-library/rest/authentication",
          .str "standard-library/rest/resource-routing"])],
      .obj [("type", .str "category"), ("label", .str "OpenAPI"),
        ("items", .arr [
          .str "standard-library/openapi/overview",
          createLibraryReferenceStructure "openapi"
            (some [.str "standard-library/openapi/diagnostics"]),
          .str "standard-library/openapi/openapi"])]])],
  .obj [("type", .str "category"), ("label", .str "Writing Cadl Libraries"),
    ("items", .arr [
      .str "extending-cadl/basics",
      .str "extending-cadl/create-decorators",
      .str "extending-cadl/linters",
      .str "extending-cadl/emitters",
      .str "extending-cadl/writing-scaffolding-template"])],
  .obj [("type", .str "category"), ("label", .str "Compiler Reference"),
    ("link", .obj [("type", .str "doc"), ("id", .str "compiler/reference/index")]),
    ("items", .arr [
      .obj [("type", .str "autogenerated"), ("dirName", .str "compiler")]])],
  .obj [("type", .str "category"), ("label", .str "Release Notes"),
    ("collapsed", .bool true),
    ("link", .obj [("type", .str "generated-index"),
      ("title", .str "Release Notes"), ("slug", .str "/release-notes")]),
    ("items", .arr [
      .obj [("type", .str "autogenerated"), ("dirName", .str "release-notes")]])]]

/-- The value exported by the module (`module.exports = sidebars`). -/
def sidebars : JValue := .obj [("docsSidebar", .arr docsSidebar)]

/-- The link shapes occurring in the sidebar: a doc link (`type: "doc"`
with an `id`) or a generated index (`type: "generated-index"` with a
`title` and a `slug`). -/
inductive SLink : Type where
  | doc (id : String)
  | generatedIndex (title : String) (slug : String)

/-- The three sidebar node kinds of the spec's data model: a leaf
reference (a path identifier string), a category (a label, an optional
collapsed flag, an optional link, and an ordered list of child items of
the same type), or an autogenerated placeholder (a directory path). -/
inductive SItem : Type where
  | ref (id : String)
  | category (label : String) (collapsed : Option Bool) (link : Option SLink)
      (items : List SItem)
  | autogenerated (dirName : String)

/-- The JavaScript object denoted by a link descriptor. -/
def SLink.toJ : SLink → JValue
  | .doc id => .obj [("type", .str "doc"), ("id", .str id)]
  | .generatedIndex title slug =>
      .obj [("type", .str "generated-index"), ("title", .str title),
        ("slug", .str slug)]

mutual

/-- The JavaScript value denoted by a sidebar node, with the fields in
the order the source literal writes them. -/
def SItem.toJ : SItem → JValue
  | .ref id => .str id
  | .autogenerated dirName =>
      .obj [("type", .str "autogenerated"), ("dirName", .str dirName)]
  | .category label collapsed link items =>
      .obj (("type", .str "category") :: ("label", .str label) ::
        ((match collapsed with
          | some b => [("collapsed", JValue.bool b)]
          | none => []) ++
         (match link with
          | some l => [("link", l.toJ)]
          | none => []) ++
         [("items", .arr (SItem.listToJ items))]))

/-- Pointwise denotation of a list of sidebar nodes. -/
def SItem.listToJ : List SItem → List JValue
  | [] => []
  | x :: xs => SItem.toJ x :: SItem.listToJ xs

end

/-- The `docsSidebar` tree, read off the source as a term of the
three-kind node grammar `SItem`. -/
def docsSidebarTyped : List SItem := [
  .category "Introduction" none none [
    .ref "introduction/introduction",
    .ref "introduction/installation",
    .ref "introduction/usage",
    .ref "introduction/style-guide",
    .ref "introduction/formatter",
    .category "Configuration" none none [
      .ref "introduction/configuration/configuration",
      .ref "introduction/configuration/tracing"],
    .ref "introduction/releases",
    .ref "introduction/faq"],
  .category "Getting Started" none none [
    .ref "getting-started/getting-started",
    .ref "getting-started/cadl-for-openapi-dev"],
  .category "Language Basics" none none [
    .ref "language-basics/overview",
    .ref "language-basics/imports",
    .ref "language-basics/namespaces",
    .ref "language-basics/decorators",
    .ref "language-basics/scalars",
    .ref "language-basics/models",
    .ref "language-basics/operations",
    .ref "language-basics/interfaces",
    .ref "language-basics/templates",
    .ref "language-basics/enums",
    .ref "language-basics/unions",
    .ref "language-basics/intersections",
    .ref "language-basics/type-literals",
    .ref "language-basics/aliases",
    .ref "language-basics/type-relations"],
  .category "Cadl Standard Library" none none [
    .ref "standard-library/built-in-types",
    .ref "standard-library/built-in-decorators",
    .ref "standard-library/projected-names",
    .category "Http And Rest" none none [
      .ref "standard-library/rest/overview",
      .category "Reference" none
        (some (.doc ("standard-library/" ++ "rest" ++ "/reference/index")))
        [.autogenerated ("standard-library/" ++ "rest" ++ "/reference")],
      .ref "standard-library/rest/operations",
      .ref "standard-library/rest/authentication",
      .ref "standard-library/rest/resource-routing"],
    .category "OpenAPI" none none [
      .ref "standard-library/openapi/overview",
      .category "Reference" none
        (some (.doc ("standard-library/" ++ "openapi" ++ "/reference/index")))
        [.autogenerated ("standard-library/" ++ "openapi" ++ "/reference"),
         .ref "standard-library/openapi/diagnostics"],
      .ref "standard-library/openapi/openapi"]],
  .category "Writing Cadl Libraries" none none [
    .ref "extending-cadl/basics",
    .ref "extending-cadl/create-decorators",
    .ref "extending-cadl/linters",
    .ref "extending-cadl/emitters",
    .ref "extending-cadl/writing-scaffolding-template"],
  .category "Compiler Reference" none
    (some (.doc "compiler/reference/index"))
    [.autogenerated "compiler"],
  .category "Release Notes" (some true)
    (some (.generatedIndex "Release Notes" "/release-notes"))
    [.autogenerated "release-notes"]]

/-- Boolean no-duplicates check on a list of labels. -/
def labelsNodup : List String → Bool
  | [] => true
  | x :: xs => !(xs.contains x) && labelsNodup xs

/-- The label of a node when it is a category object, `none` otherwise. -/
def jCatLabel : JValue → Option String
  | .obj fs =>
    match jGet fs "type", jGet fs "label" with
    | some (.str "category"), some (.str l) => some l
    | _, _ => none
  | _ => none

/-- The child-item list of a node (empty for leaves and for nodes
without an `items` array). -/
def jChildItems : JValue → List JValue
  | .obj fs =>
    match jGet fs "items" with
    | some (.arr xs) => xs
    | _ => []
  | _ => []

/-- Fuel-bounded check that in a sibling list, and recursively in every
descendant sibling list, no two category nodes carry the same label.
Returns `false` when the fuel runs out, so `true` certifies the whole
tree. -/
def siblingLabelsUnique : Nat → List JValue → Bool
  | 0, _ => false
  | fuel + 1, vs =>
      labelsNodup (vs.filterMap jCatLabel) &&
      vs.all fun v => siblingLabelsUnique fuel (jChildItems v)

/-- C1: the helper returns the fixed-shape object: a category labelled
"Reference", a doc link at `standard-library/<libName>/reference/index`,
and an items list of the autogenerated entry for
`standard-library/<libName>/reference` followed by the extras (none
when `extra` is omitted). -/
theorem createLibraryReferenceStructure_shape (libName : String)
    (extra : Option (List JValue)) :
    (createLibraryReferenceStructure libName extra).getField "type"
      = some (.str "category") ∧
    (createLibraryReferenceStructure libName extra).getField "label"
      = some (.str "Reference") ∧
    (createLibraryReferenceStructure libName extra).getField "link"
      = some (.obj [("type", .str "doc"),
          ("id", .str ("standard-library/" ++ libName ++ "/reference/index"))]) ∧
    (createLibraryReferenceStructure libName extra).getField "items"
      = some (.arr (
          .obj [("type", .str "autogenerated"),
            ("dirName", .str ("standard-library/" ++ libName ++ "/reference"))]
          :: extra.getD [])) ∧
    (createLibraryReferenceStructure libName none).getField "items"
      = some (.arr [
          .obj [("type", .str "autogenerated"),
            ("dirName", .str ("standard-library/" ++ libName ++ "/reference"))]]) := by
  refine ⟨rfl, rfl, rfl, rfl, rfl⟩

/-- C2 counterexample: the claim that the label of the returned
descriptor is the argument fails at the source's own call
`createLibraryReferenceStructure("rest")`: the label is "Reference",
not "rest". -/
theorem createLibraryReferenceStructure_label_not_arg :
    ¬ ((createLibraryReferenceStructure "rest" none).getField "label"
        = some (.str "rest")) := by
  intro h
  simp [createLibraryReferenceStructure, JValue.getField, jGet] at h

/-- C2 (amended): the helper is a pure function of a library name and
an optional extras list; the label of the returned descriptor is the
constant "Reference", for every call. -/
theorem createLibraryReferenceStructure_label_const (libName : String)
    (extra : Option (List JValue)) :
    (createLibraryReferenceStructure libName extra).getField "label"
      = some (.str "Reference") := rfl

/-- C3: for every library name and extras list (also when the extras
are omitted, i.e. `none`), the helper returns normally, its only effect
being the construction of the returned category object. -/
theorem createLibraryReferenceStructure_total (libName : String)
    (extra : Option (List JValue)) :
    ∃ link items, createLibraryReferenceStructure libName extra
      = .obj [("type", .str "category"), ("label", .str "Reference"),
          ("link", link), ("items", items)] :=
  ⟨_, _, rfl⟩

/-- C4: the fully evaluated `docsSidebar` value is the denotation of a
tree in the three-kind node grammar (leaf reference, category,
autogenerated placeholder): every node of it is exactly one of the
three kinds. -/
theorem docsSidebar_three_kinds :
    docsSidebar = SItem.listToJ docsSidebarTyped := by
  rfl

/-- C5: in the evaluated `docsSidebar` tree, within every sibling list
no two category nodes carry the same label (fuel 10 exceeds the tree's
depth, so the check covers every sibling list). -/
theorem docsSidebar_sibling_labels_unique :
    siblingLabelsUnique 10 docsSidebar = true := by
  decide

/-- C6: construction is deterministic and side-effect-free: the helper
applied to equal arguments yields equal results, and the module's
exported value is a constant, so any two evaluations of it are equal. -/
theorem sidebars_deterministic (n₁ n₂ : String)
    (e₁ e₂ : Option (List JValue)) (hn : n₁ = n₂) (he : e₁ = e₂) :
    createLibraryReferenceStructure n₁ e₁
      = createLibraryReferenceStructure n₂ e₂ ∧
    sidebars = sidebars := by
  subst hn
  subst he
  exact ⟨rfl, rfl⟩

/-- Determinism instantiated at the source's call on "rest". -/
theorem sidebars_deterministic_witness :
    createLibraryReferenceStructure "rest" none
      = createLibraryReferenceStructure "rest" none ∧
    sidebars = sidebars :=
  sidebars_deterministic "rest" "rest" none none rfl rfl

/-- C8: omitting the extras (in the embedding: passing `none`, which
covers both the omitted argument and an explicit `undefined`, since
`extra ?? []` treats them alike) gives the same result as passing the
empty list. -/
theorem createLibraryReferenceStructure_default_extra (libName : String) :
    createLibraryReferenceStructure libName none
      = createLibraryReferenceStructure libName (some []) := rfl

/-- C9: the items list is the autogenerated marker followed by the
extras in their given order (hence non-empty with the marker first),
and the link id is the marker's dirName with "/index" appended. -/
theorem createLibraryReferenceStructure_items_head (libName : String)
    (extra : Option (List JValue)) :
    (createLibraryReferenceStructure libName extra).getField "items"
      = some (.arr (
          .obj [("type", .str "autogenerated"),
            ("dirName", .str ("standard-library/" ++ libName ++ "/reference"))]
          :: extra.getD [])) ∧
    ((createLibraryReferenceStructure libName extra).getField "link").bind
        (fun l => l.getField "id")
      = some (.str
          (("standard-library/" ++ libName ++ "/reference") ++ "/index")) := by
  refine ⟨rfl, ?_⟩
  show some (JValue.str ("standard-library/" ++ libName ++ "/reference/index"))
    = some (JValue.str
        (("standard-library/" ++ libName ++ "/reference") ++ "/index"))
  have h : "/reference/index" = "/reference" ++ "/index" := rfl
  rw [h, String.append_assoc, String.append_assoc]
  rfl

/-- C10: the type and label fields of the result do not depend on the
inputs: any two calls agree on them, and they are the constants
"category" and "Reference". -/
theorem createLibraryReferenceStructure_type_label_independent
    (n₁ n₂ : String) (e₁ e₂ : Option (List JValue)) :
    (createLibraryReferenceStructure n₁ e₁).getField "type"
      = (createLibraryReferenceStructure n₂ e₂).getField "type" ∧
    (createLibraryReferenceStructure n₁ e₁).getField "label"
      = (createLibraryReferenceStructure n₂ e₂).getField "label" ∧
    (createLibraryReferenceStructure n₁ e₁).getField "type"
      = some (.str "category") ∧
    (createLibraryReferenceStructure n₁ e₁).getField "label"
      = some (.str "Reference") :=
  ⟨rfl, rfl, rfl, rfl⟩
